import Mathlib

/-!
Verification of `gymnasium/wrappers/jax_to_torch.py`.

This file shallowly embeds the runtime values and the two singledispatch
converters `torch_to_jax` (dialect B = PyTorch → dialect A = Jax) and
`jax_to_torch` (A → B), together with the `JaxToTorch` environment adapter
(its `step`, `reset` and `render` methods), and proves / refutes the frozen
claims about them.

Modelling conventions:
* A Python runtime value is a `Value`: the absence marker `None`, plain
  numbers (`int`, `float`, `bool`, `complex` — all `numbers.Number`
  instances), strings, torch tensors, jax arrays, mappings (`dict`-like,
  keyword-constructible, string keys), namedtuples (types exposing `_make`),
  generic iterable containers (`list`/`tuple`-like, constructible from an
  iterable), and a catch-all `other` for every type outside the recognized
  shapes (e.g. a raw socket object), carrying its type name.
* Tensors carry a shape, flat element data and a device string.  The dlpack
  interchange (`jax_dlpack.from_dlpack` / `torch_dlpack.from_dlpack`) is
  value-preserving, so it is modelled as carrying the tensor over unchanged;
  `.to(device=...)` is modelled as replacing the device string.
* Raising a Python exception is modelled as returning `.error`; `PyError`
  distinguishes the two singledispatch fallback `Exception`s (which carry
  the offending runtime type, cf. lines 52-54 and 95-97 of the source) from
  ordinary `TypeError`s raised by constructor calls or scalar coercions.
* `str` is an `abc.Iterable`, so it dispatches to the iterable handlers;
  `type(value)(generator)` is then `str(<generator>)`, which renders the
  generator's repr WITHOUT consuming it, so the characters are never
  converted and the call returns a garbage-but-ordinary string, modelled by
  the constant `genRepr`.
-/

/-- A tensor element: the scalar payloads a 0-d `jnp.array(number)` can hold. -/
inductive Elem where
  | i : Int → Elem
  | r : Rat → Elem
  | b : Bool → Elem
  | c : Rat → Rat → Elem
deriving DecidableEq, Repr

/-- A tensor/array of either dialect: shape, flat element data, device. -/
structure Tensor where
  shape : List Nat
  data : List Elem
  device : String
deriving DecidableEq, Repr

/-- A Python runtime value as seen by the converters. -/
inductive Value where
  | none_ : Value
  | intV : Int → Value
  | floatV : Rat → Value
  | boolV : Bool → Value
  | complexV : Rat → Rat → Value
  | strV : String → Value
  | torchTensor : Tensor → Value
  | jaxArray : Tensor → Value
  | dict : String → List (String × Value) → Value
  | ntuple : String → List Value → Value
  | container : String → List Value → Value
  | other : String → Value
deriving Repr

/-- The Python runtime type name of a value, as interpolated by the
`f"... ({type(value)}) ..."` error messages (class-name decoration elided). -/
def pyType : Value → String
  | .none_ => "NoneType"
  | .intV _ => "int"
  | .floatV _ => "float"
  | .boolV _ => "bool"
  | .complexV _ _ => "complex"
  | .strV _ => "str"
  | .torchTensor _ => "torch.Tensor"
  | .jaxArray _ => "jaxlib.xla_extension.ArrayImpl"
  | .dict ty _ => ty
  | .ntuple ty _ => ty
  | .container ty _ => ty
  | .other ty => ty

/-- A raised Python exception: the two singledispatch base-case `Exception`s
(carrying the offending runtime type) and ordinary `TypeError`s. -/
inductive PyError where
  | unsupportedTorchToJax : String → PyError
  | unsupportedJaxToTorch : String → PyError
  | typeError : String → PyError
deriving DecidableEq, Repr

/-- The rendered message of an exception (source lines 52-54 and 95-97). -/
def PyError.message : PyError → String
  | .unsupportedTorchToJax ty =>
      "No known conversion for Torch type (" ++ ty ++
        ") to Jax registered. Report as issue on github."
  | .unsupportedJaxToTorch ty =>
      "No known conversion for Jax type (" ++ ty ++
        ") to PyTorch registered. Report as issue on github."
  | .typeError m => m

/-- The string `str(generator)` produces: the repr of the (unconsumed)
generator object, address elided. -/
def genRepr : String := "<generator object>"

/-- `_number_torch_to_jax` (source lines 57-60): `jnp.array(value)` wraps a
plain number into a zero-dimensional jax array on the default jax device. -/
def _number_torch_to_jax (e : Elem) : Value :=
  .jaxArray { shape := [], data := [e], device := "jax_default_device" }

/-- `_tensor_torch_to_jax` (source lines 63-66): `jax_dlpack.from_dlpack`
interchange, value- and device-preserving. -/
def _tensor_torch_to_jax (t : Tensor) : Value := .jaxArray t

/-- `_devicearray_jax_to_torch` (source lines 100-111):
`torch_dlpack.from_dlpack` interchange (value- and device-preserving),
followed by `tensor.to(device=device)` when a device is given. -/
def _devicearray_jax_to_torch (t : Tensor) (device : Option String) : Value :=
  match device with
  | some d => .torchTensor { t with device := d }
  | none => .torchTensor t

mutual

/-- `torch_to_jax` (source lines 49-89), with singledispatch resolved
most-specific-first over the registered classes `numbers.Number`,
`torch.Tensor`, `abc.Mapping`, `abc.Iterable`, `NoneType`:
* numbers → `_number_torch_to_jax`;
* torch tensors → `_tensor_torch_to_jax` (`torch.Tensor` beats the less
  specific `abc.Iterable`);
* dicts → `_mapping_torch_to_jax`: `type(value)(**{k: torch_to_jax(v)})`
  (`abc.Mapping` beats `abc.Iterable`);
* namedtuples → `_iterable_torch_to_jax`, `_make` branch;
* generic containers → `_iterable_torch_to_jax`, `type(value)(generator)`;
* strings → `_iterable_torch_to_jax`, where `str(generator)` does not
  consume the generator and yields the generator's repr;
* jax arrays are `abc.Iterable` but not registered here, so
  `_iterable_torch_to_jax` tries `type(value)(generator)`, and the
  `ArrayImpl` constructor rejects a generator with a `TypeError`;
* anything else → the base case raising the registered-type `Exception`. -/
def torch_to_jax : Value → Except PyError Value
  | .none_ => .ok .none_
  | .intV n => .ok (_number_torch_to_jax (.i n))
  | .floatV q => .ok (_number_torch_to_jax (.r q))
  | .boolV b => .ok (_number_torch_to_jax (.b b))
  | .complexV re im => .ok (_number_torch_to_jax (.c re im))
  | .torchTensor t => .ok (_tensor_torch_to_jax t)
  | .dict ty es =>
      match torchToJaxEntries es with
      | .ok es' => .ok (.dict ty es')
      | .error e => .error e
  | .ntuple ty fs =>
      match torchToJaxList fs with
      | .ok fs' => .ok (.ntuple ty fs')
      | .error e => .error e
  | .container ty es =>
      match torchToJaxList es with
      | .ok es' => .ok (.container ty es')
      | .error e => .error e
  | .strV _ => .ok (.strV genRepr)
  | .jaxArray t =>
      .error (.typeError
        ("cannot construct " ++ pyType (.jaxArray t) ++ " from a generator"))
  | .other ty => .error (.unsupportedTorchToJax ty)

/-- Fail-fast left-to-right conversion of the elements of an iterable /
namedtuple, as performed by consuming `(torch_to_jax(v) for v in value)`. -/
def torchToJaxList : List Value → Except PyError (List Value)
  | [] => .ok []
  | v :: vs =>
      match torch_to_jax v with
      | .error e => .error e
      | .ok v' =>
          match torchToJaxList vs with
          | .error e => .error e
          | .ok vs' => .ok (v' :: vs')

/-- Fail-fast conversion of a mapping's values, keys unchanged, as performed
by the dict comprehension `{k: torch_to_jax(v) for k, v in value.items()}`. -/
def torchToJaxEntries :
    List (String × Value) → Except PyError (List (String × Value))
  | [] => .ok []
  | (k, v) :: rest =>
      match torch_to_jax v with
      | .error e => .error e
      | .ok v' =>
          match torchToJaxEntries rest with
          | .error e => .error e
          | .ok rest' => .ok ((k, v') :: rest')

end

mutual

/-- `jax_to_torch` (source lines 92-144), with singledispatch over the
registered classes `jax.Array`, `abc.Mapping`, `abc.Iterable`, `NoneType`:
* jax arrays: since jax 0.6.0 an `ArrayImpl` dispatches to
  `_jax_iterable_to_torch` (source comment, lines 127-131), whose
  `isinstance(value, jax.Array)` guard forwards to
  `_devicearray_jax_to_torch(value)` WITHOUT the device argument
  (source line 132), so no device move is applied;
* dicts → `_jax_mapping_to_torch`: `type(value)(**{k: jax_to_torch(v,
  device)})`;
* namedtuples / generic containers / strings → `_jax_iterable_to_torch`
  as in the B→A direction, the device threaded through recursive calls;
* torch tensors are `abc.Iterable` but not `jax.Array` and have no
  `_make`, so `type(value)(generator)` raises a `TypeError`;
* plain numbers match NO registered class (`numbers.Number` is not
  registered in this direction and numbers are not iterable), so they hit
  the base case and raise, as does any unrecognized type. -/
def jax_to_torch : Value → Option String → Except PyError Value
  | .none_, _ => .ok .none_
  | .jaxArray t, _ => .ok (_devicearray_jax_to_torch t none)
  | .dict ty es, device =>
      match jaxToTorchEntries es device with
      | .ok es' => .ok (.dict ty es')
      | .error e => .error e
  | .ntuple ty fs, device =>
      match jaxToTorchList fs device with
      | .ok fs' => .ok (.ntuple ty fs')
      | .error e => .error e
  | .container ty es, device =>
      match jaxToTorchList es device with
      | .ok es' => .ok (.container ty es')
      | .error e => .error e
  | .strV _, _ => .ok (.strV genRepr)
  | .torchTensor t, _ =>
      .error (.typeError
        ("cannot construct " ++ pyType (.torchTensor t) ++ " from a generator"))
  | v, _ => .error (.unsupportedJaxToTorch (pyType v))

/-- Fail-fast conversion of the elements of an iterable / namedtuple. -/
def jaxToTorchList :
    List Value → Option String → Except PyError (List Value)
  | [], _ => .ok []
  | v :: vs, device =>
      match jax_to_torch v device with
      | .error e => .error e
      | .ok v' =>
          match jaxToTorchList vs device with
          | .error e => .error e
          | .ok vs' => .ok (v' :: vs')

/-- Fail-fast conversion of a mapping's values, keys unchanged. -/
def jaxToTorchEntries :
    List (String × Value) → Option String → Except PyError (List (String × Value))
  | [], _ => .ok []
  | (k, v) :: rest, device =>
      match jax_to_torch v device with
      | .error e => .error e
      | .ok v' =>
          match jaxToTorchEntries rest device with
          | .error e => .error e
          | .ok rest' => .ok ((k, v') :: rest')

end

/-- `float(element)`: complex elements cannot be coerced to float. -/
def elemToFloat : Elem → Except PyError Rat
  | .i n => .ok (n : Rat)
  | .r q => .ok q
  | .b b => .ok (if b then 1 else 0)
  | .c _ _ =>
      .error (.typeError "float() argument cannot be a complex number")

/-- `bool(element)`: zero-ness of the element. -/
def elemToBool : Elem → Bool
  | .i n => decide (n ≠ 0)
  | .r q => decide (q ≠ 0)
  | .b b => b
  | .c re im => decide (re ≠ 0 ∨ im ≠ 0)

/-- Python `float(value)` as used by `JaxToTorch.step` on the reward.
Plain numbers coerce; one-element tensors/arrays of either dialect coerce
through their single element; everything else raises a `TypeError`.
(Parsing of numeric strings is not modelled: no reward is a string here.) -/
def pyFloat : Value → Except PyError Rat
  | .intV n => .ok (n : Rat)
  | .floatV q => .ok q
  | .boolV b => .ok (if b then 1 else 0)
  | .jaxArray t =>
      match t.data with
      | [e] => elemToFloat e
      | _ =>
          .error (.typeError
            "only length-1 arrays can be converted to Python scalars")
  | .torchTensor t =>
      match t.data with
      | [e] => elemToFloat e
      | _ =>
          .error (.typeError
            "only one element tensors can be converted to Python scalars")
  | v => .error (.typeError ("float() argument of type " ++ pyType v))

/-- Python `bool(value)` / truthiness as used by `JaxToTorch.step` on
terminated/truncated and by `if options:` / `if device:`.  Containers are
truthy when non-empty; tensors/arrays of either dialect coerce only when
they hold exactly one element (otherwise the runtime raises the ambiguous
truth value error); objects with no `__bool__`/`__len__` are truthy. -/
def pyBool : Value → Except PyError Bool
  | .none_ => .ok false
  | .intV n => .ok (decide (n ≠ 0))
  | .floatV q => .ok (decide (q ≠ 0))
  | .boolV b => .ok b
  | .complexV re im => .ok (decide (re ≠ 0 ∨ im ≠ 0))
  | .strV s => .ok (decide (s ≠ ""))
  | .dict _ es => .ok (!es.isEmpty)
  | .ntuple _ fs => .ok (!fs.isEmpty)
  | .container _ es => .ok (!es.isEmpty)
  | .jaxArray t =>
      match t.data with
      | [e] => .ok (elemToBool e)
      | _ =>
          .error (.typeError
            "the truth value of an array with more than one element is ambiguous")
  | .torchTensor t =>
      match t.data with
      | [e] => .ok (elemToBool e)
      | _ =>
          .error (.typeError
            "Boolean value of Tensor with more than one element is ambiguous")
  | .other _ => .ok true

/-- A plain Python number (`numbers.Number`: int, float, bool, complex). -/
def isNumber : Value → Bool
  | .intV _ => true
  | .floatV _ => true
  | .boolV _ => true
  | .complexV _ _ => true
  | _ => false

/-- The wrapped dialect-A (jax-native) environment: the interface the
adapter requires (`reset`/`step`/`render`, cf. spec section 6). -/
structure JaxEnv where
  step : Value → Value × Value × Value × Value × Value
  reset : Option Int → Option Value → Value × Value
  render : Value

/-- `JaxToTorch` (source lines 147-189): holds the wrapped environment and
the optional target device; no conversion happens at construction. -/
structure JaxToTorch where
  env : JaxEnv
  device : Option String

/-- `JaxToTorch.step` (source lines 191-211): convert the action B→A,
delegate, then build the 5-tuple `(jax_to_torch(obs, device),
float(reward), bool(terminated), bool(truncated), jax_to_torch(info,
device))`, the components evaluated left to right, any exception
propagating. -/
def JaxToTorch.step (w : JaxToTorch) (action : Value) :
    Except PyError (Value × Value × Value × Value × Value) :=
  match torch_to_jax action with
  | .error e => .error e
  | .ok jaxAction =>
      match w.env.step jaxAction with
      | (obs, reward, terminated, truncated, info) =>
          match jax_to_torch obs w.device with
          | .error e => .error e
          | .ok tobs =>
              match pyFloat reward with
              | .error e => .error e
              | .ok r =>
                  match pyBool terminated with
                  | .error e => .error e
                  | .ok term =>
                      match pyBool truncated with
                      | .error e => .error e
                      | .ok trunc =>
                          match jax_to_torch info w.device with
                          | .error e => .error e
                          | .ok tinfo =>
                              .ok (tobs, .floatV r, .boolV term,
                                .boolV trunc, tinfo)

/-- `JaxToTorch.reset` (source lines 213-228): `if options:` (truthiness!)
convert the options B→A, delegate with the seed passed through unchanged,
and convert the returned `(observation, info)` tuple A→B with the
configured device. -/
def JaxToTorch.reset (w : JaxToTorch) (seed : Option Int)
    (options : Option Value) : Except PyError Value :=
  match options with
  | none =>
      match w.env.reset seed none with
      | (obs, info) => jax_to_torch (.container "tuple" [obs, info]) w.device
  | some o =>
      match pyBool o with
      | .error e => .error e
      | .ok true =>
          match torch_to_jax o with
          | .error e => .error e
          | .ok o' =>
              match w.env.reset seed (some o') with
              | (obs, info) =>
                  jax_to_torch (.container "tuple" [obs, info]) w.device
      | .ok false =>
          match w.env.reset seed (some o) with
          | (obs, info) =>
              jax_to_torch (.container "tuple" [obs, info]) w.device

/-- `JaxToTorch.render` (source lines 230-232): delegate and apply
`jax_to_torch` to the output with NO device argument (default `None`). -/
def JaxToTorch.render (w : JaxToTorch) : Except PyError Value :=
  jax_to_torch w.env.render none

mutual

/-- Values built from the recognized shapes with dialect-B (torch) tensor
leaves: absence, plain numbers, torch tensors, strings, mappings, records
and generic containers of such.  `torch_to_jax` is total on these. -/
def torchSide : Value → Bool
  | .none_ => true
  | .intV _ => true
  | .floatV _ => true
  | .boolV _ => true
  | .complexV _ _ => true
  | .strV _ => true
  | .torchTensor _ => true
  | .jaxArray _ => false
  | .dict _ es => torchSideEntries es
  | .ntuple _ fs => torchSideList fs
  | .container _ es => torchSideList es
  | .other _ => false

def torchSideList : List Value → Bool
  | [] => true
  | v :: vs => torchSide v && torchSideList vs

def torchSideEntries : List (String × Value) → Bool
  | [] => true
  | (_, v) :: rest => torchSide v && torchSideEntries rest

end

mutual

/-- Values built from the recognized shapes with dialect-A (jax) tensor
leaves, EXCLUDING plain numbers (which `jax_to_torch` does not handle):
absence, jax arrays, strings, mappings, records and containers of such.
`jax_to_torch` is total on these. -/
def jaxSide : Value → Bool
  | .none_ => true
  | .intV _ => false
  | .floatV _ => false
  | .boolV _ => false
  | .complexV _ _ => false
  | .strV _ => true
  | .torchTensor _ => false
  | .jaxArray _ => true
  | .dict _ es => jaxSideEntries es
  | .ntuple _ fs => jaxSideList fs
  | .container _ es => jaxSideList es
  | .other _ => false

def jaxSideList : List Value → Bool
  | [] => true
  | v :: vs => jaxSide v && jaxSideList vs

def jaxSideEntries : List (String × Value) → Bool
  | [] => true
  | (_, v) :: rest => jaxSide v && jaxSideEntries rest

end

/-! ### Concrete environments and values used by witnesses and
counterexamples. -/

/-- A two-element jax array living on a device, used by the C2 render
counterexample. -/
def c2Tensor : Tensor := { shape := [2], data := [.r 1, .r 2], device := "gpu0" }

/-- An environment whose render output is a jax array. -/
def c2Env : JaxEnv :=
  { step := fun a => (a, .floatV 0, .boolV false, .boolV false, .dict "dict" [])
    reset := fun _ _ => (.none_, .dict "dict" [])
    render := .jaxArray c2Tensor }

/-- The C2 wrapper, with a configured device to show render ignores it. -/
def c2W : JaxToTorch := { env := c2Env, device := some "cuda:0" }

/-- A nested dialect-B value exercising every total B→A shape. -/
def c3Value : Value :=
  .dict "dict"
    [("obs", .container "list"
        [.strV "ab", .none_, .intV 2, .torchTensor ⟨[1], [.r 3], "cpu"⟩])]

/-- A nested dialect-A value exercising the total A→B shapes. -/
def c3JaxValue : Value :=
  .ntuple "Point" [.jaxArray ⟨[], [.i 1], "tpu0"⟩, .none_]

/-- Observation tensor returned by the C4 environment. -/
def c4Tensor : Tensor := { shape := [2], data := [.r 1, .r 2], device := "tpu0" }

/-- Tensor-typed reward returned by the C4 environment. -/
def c4RewT : Tensor := { shape := [], data := [.r (3 / 2)], device := "tpu0" }

/-- Tensor-typed terminated flag returned by the C4 environment. -/
def c4TermT : Tensor := { shape := [], data := [.b true], device := "tpu0" }

/-- Tensor-typed truncated flag returned by the C4 environment. -/
def c4TruncT : Tensor := { shape := [], data := [.i 0], device := "tpu0" }

/-- An environment returning tensor-typed reward/terminated/truncated. -/
def c4Env : JaxEnv :=
  { step := fun _ =>
      (.jaxArray c4Tensor, .jaxArray c4RewT, .jaxArray c4TermT,
        .jaxArray c4TruncT, .dict "dict" [])
    reset := fun _ _ => (.none_, .dict "dict" [])
    render := .none_ }

/-- The C4 wrapper. -/
def c4W : JaxToTorch := { env := c4Env, device := some "cuda:1" }

/-- The C4 torch action. -/
def c4Action : Value := .torchTensor { shape := [1], data := [.r (1 / 2)], device := "cpu" }

/-- The 5-tuple `JaxToTorch.step` produces for the C4 scenario. -/
def c4Res : Value × Value × Value × Value × Value :=
  (.torchTensor c4Tensor, .floatV (3 / 2), .boolV true, .boolV false,
    .dict "dict" [])

/-- C7 witness mapping (dialect B side). -/
def c7Es : List (String × Value) := [("a", .intV 1), ("b", .none_)]

/-- Its B→A conversion. -/
def c7R : Value :=
  .dict "dict"
    [("a", .jaxArray { shape := [], data := [.i 1], device := "jax_default_device" }),
      ("b", .none_)]

/-- C7 witness mapping (dialect A side). -/
def c7EsJ : List (String × Value) :=
  [("x", .jaxArray { shape := [3], data := [.i 1, .i 2, .i 3], device := "tpu1" })]

/-- Its A→B conversion. -/
def c7RJ : Value :=
  .dict "dict"
    [("x", .torchTensor { shape := [3], data := [.i 1, .i 2, .i 3], device := "tpu1" })]

/-- An environment for the C8 reset witness. -/
def c8Env : JaxEnv :=
  { step := fun a => (a, .floatV 0, .boolV false, .boolV false, .dict "dict" [])
    reset := fun _ _ => (.jaxArray ⟨[1], [.r 5], "tpu2"⟩, .dict "dict" [])
    render := .none_ }

/-- The C8 wrapper. -/
def c8W : JaxToTorch := { env := c8Env, device := none }

/-- Dialect-B reset options. -/
def c8Opts : Value := .dict "dict" [("level", .intV 2)]

/-- Their B→A conversion. -/
def c8OptsJ : Value :=
  .dict "dict"
    [("level", .jaxArray { shape := [], data := [.i 2], device := "jax_default_device" })]

/-- C9 witness record fields (dialect B side): three fields (a, b, c). -/
def c9Fs : List Value := [.intV 1, .torchTensor ⟨[1], [.r 4], "cpu"⟩, .none_]

/-- Its B→A conversion result. -/
def c9R : Value :=
  .ntuple "Point"
    [.jaxArray { shape := [], data := [.i 1], device := "jax_default_device" },
      .jaxArray { shape := [1], data := [.r 4], device := "cpu" }, .none_]

/-- C9 witness record fields (dialect A side). -/
def c9FsJ : List Value := [.jaxArray ⟨[2], [.i 1, .i 2], "tpu3"⟩, .none_, .strV "nm"]

/-- Its A→B conversion result. -/
def c9RJ : Value :=
  .ntuple "Obs"
    [.torchTensor { shape := [2], data := [.i 1, .i 2], device := "tpu3" }, .none_,
      .strV genRepr]

/-! ### Inversion lemmas: what a successful conversion of a mapping's
entries or an iterable's elements looks like. -/

theorem torchToJaxEntries_spec (es : List (String × Value)) :
    ∀ es', torchToJaxEntries es = .ok es' →
      List.Forall₂ (fun p q => p.1 = q.1 ∧ torch_to_jax p.2 = .ok q.2) es es' := by
  induction es with
  | nil =>
      intro es' h
      simp only [torchToJaxEntries] at h
      cases h
      exact .nil
  | cons hd tl ih =>
      obtain ⟨k, v⟩ := hd
      intro es' h
      simp only [torchToJaxEntries] at h
      cases hv : torch_to_jax v with
      | error e => simp [hv] at h
      | ok v' =>
          cases ht : torchToJaxEntries tl with
          | error e => simp [hv, ht] at h
          | ok tl' =>
              simp only [hv, ht] at h
              cases h
              exact .cons ⟨rfl, hv⟩ (ih _ ht)

theorem torchToJaxList_spec (vs : List Value) :
    ∀ vs', torchToJaxList vs = .ok vs' →
      List.Forall₂ (fun a b => torch_to_jax a = .ok b) vs vs' := by
  induction vs with
  | nil =>
      intro vs' h
      simp only [torchToJaxList] at h
      cases h
      exact .nil
  | cons v tl ih =>
      intro vs' h
      simp only [torchToJaxList] at h
      cases hv : torch_to_jax v with
      | error e => simp [hv] at h
      | ok v' =>
          cases ht : torchToJaxList tl with
          | error e => simp [hv, ht] at h
          | ok tl' =>
              simp only [hv, ht] at h
              cases h
              exact .cons hv (ih _ ht)

theorem jaxToTorchEntries_spec (es : List (String × Value)) (d : Option String) :
    ∀ es', jaxToTorchEntries es d = .ok es' →
      List.Forall₂ (fun p q => p.1 = q.1 ∧ jax_to_torch p.2 d = .ok q.2) es es' := by
  induction es with
  | nil =>
      intro es' h
      simp only [jaxToTorchEntries] at h
      cases h
      exact .nil
  | cons hd tl ih =>
      obtain ⟨k, v⟩ := hd
      intro es' h
      simp only [jaxToTorchEntries] at h
      cases hv : jax_to_torch v d with
      | error e => simp [hv] at h
      | ok v' =>
          cases ht : jaxToTorchEntries tl d with
          | error e => simp [hv, ht] at h
          | ok tl' =>
              simp only [hv, ht] at h
              cases h
              exact .cons ⟨rfl, hv⟩ (ih _ ht)

theorem jaxToTorchList_spec (vs : List Value) (d : Option String) :
    ∀ vs', jaxToTorchList vs d = .ok vs' →
      List.Forall₂ (fun a b => jax_to_torch a d = .ok b) vs vs' := by
  induction vs with
  | nil =>
      intro vs' h
      simp only [jaxToTorchList] at h
      cases h
      exact .nil
  | cons v tl ih =>
      intro vs' h
      simp only [jaxToTorchList] at h
      cases hv : jax_to_torch v d with
      | error e => simp [hv] at h
      | ok v' =>
          cases ht : jaxToTorchList tl d with
          | error e => simp [hv, ht] at h
          | ok tl' =>
              simp only [hv, ht] at h
              cases h
              exact .cons hv (ih _ ht)

/-- A key-preserving pointwise relation between entry lists preserves the
key sequence. -/
theorem forall2_keys {R : (String × Value) → (String × Value) → Prop}
    {es es' : List (String × Value)} (hR : ∀ p q, R p q → p.1 = q.1)
    (h : List.Forall₂ R es es') :
    es'.map Prod.fst = es.map Prod.fst := by
  induction h with
  | nil => rfl
  | cons hpq _ ih => simp [ih, (hR _ _ hpq).symm]

/-! ### Totality of each converter over its dialect's recognized values. -/

mutual

theorem torchToJaxTotal :
    ∀ v, torchSide v = true → ∃ r, torch_to_jax v = .ok r
  | .none_, _ => ⟨.none_, by simp [torch_to_jax]⟩
  | .intV n, _ => ⟨_number_torch_to_jax (.i n), by simp [torch_to_jax]⟩
  | .floatV q, _ => ⟨_number_torch_to_jax (.r q), by simp [torch_to_jax]⟩
  | .boolV b, _ => ⟨_number_torch_to_jax (.b b), by simp [torch_to_jax]⟩
  | .complexV re im, _ =>
      ⟨_number_torch_to_jax (.c re im), by simp [torch_to_jax]⟩
  | .strV s, _ => ⟨.strV genRepr, by simp [torch_to_jax]⟩
  | .torchTensor t, _ => ⟨_tensor_torch_to_jax t, by simp [torch_to_jax]⟩
  | .jaxArray t, h => by simp [torchSide] at h
  | .other ty, h => by simp [torchSide] at h
  | .dict ty es, h => by
      have h' : torchSideEntries es = true := by simpa [torchSide] using h
      obtain ⟨es', he⟩ := torchToJaxEntriesTotal es h'
      exact ⟨.dict ty es', by simp [torch_to_jax, he]⟩
  | .ntuple ty fs, h => by
      have h' : torchSideList fs = true := by simpa [torchSide] using h
      obtain ⟨fs', hf⟩ := torchToJaxListTotal fs h'
      exact ⟨.ntuple ty fs', by simp [torch_to_jax, hf]⟩
  | .container ty es, h => by
      have h' : torchSideList es = true := by simpa [torchSide] using h
      obtain ⟨es', he⟩ := torchToJaxListTotal es h'
      exact ⟨.container ty es', by simp [torch_to_jax, he]⟩

theorem torchToJaxListTotal :
    ∀ vs, torchSideList vs = true → ∃ rs, torchToJaxList vs = .ok rs
  | [], _ => ⟨[], by simp [torchToJaxList]⟩
  | v :: vs, h => by
      have h' : torchSide v = true ∧ torchSideList vs = true := by
        simpa [torchSideList, Bool.and_eq_true] using h
      obtain ⟨r, hr⟩ := torchToJaxTotal v h'.1
      obtain ⟨rs, hrs⟩ := torchToJaxListTotal vs h'.2
      exact ⟨r :: rs, by simp [torchToJaxList, hr, hrs]⟩

theorem torchToJaxEntriesTotal :
    ∀ es, torchSideEntries es = true → ∃ rs, torchToJaxEntries es = .ok rs
  | [], _ => ⟨[], by simp [torchToJaxEntries]⟩
  | (k, v) :: rest, h => by
      have h' : torchSide v = true ∧ torchSideEntries rest = true := by
        simpa [torchSideEntries, Bool.and_eq_true] using h
      obtain ⟨r, hr⟩ := torchToJaxTotal v h'.1
      obtain ⟨rs, hrs⟩ := torchToJaxEntriesTotal rest h'.2
      exact ⟨(k, r) :: rs, by simp [torchToJaxEntries, hr, hrs]⟩

end

mutual

theorem jaxToTorchTotal :
    ∀ v (d : Option String), jaxSide v = true → ∃ r, jax_to_torch v d = .ok r
  | .none_, _, _ => ⟨.none_, by simp [jax_to_torch]⟩
  | .intV n, _, h => by simp [jaxSide] at h
  | .floatV q, _, h => by simp [jaxSide] at h
  | .boolV b, _, h => by simp [jaxSide] at h
  | .complexV re im, _, h => by simp [jaxSide] at h
  | .strV s, _, _ => ⟨.strV genRepr, by simp [jax_to_torch]⟩
  | .torchTensor t, _, h => by simp [jaxSide] at h
  | .jaxArray t, _, _ =>
      ⟨_devicearray_jax_to_torch t none, by simp [jax_to_torch]⟩
  | .other ty, _, h => by simp [jaxSide] at h
  | .dict ty es, d, h => by
      have h' : jaxSideEntries es = true := by simpa [jaxSide] using h
      obtain ⟨es', he⟩ := jaxToTorchEntriesTotal es d h'
      exact ⟨.dict ty es', by simp [jax_to_torch, he]⟩
  | .ntuple ty fs, d, h => by
      have h' : jaxSideList fs = true := by simpa [jaxSide] using h
      obtain ⟨fs', hf⟩ := jaxToTorchListTotal fs d h'
      exact ⟨.ntuple ty fs', by simp [jax_to_torch, hf]⟩
  | .container ty es, d, h => by
      have h' : jaxSideList es = true := by simpa [jaxSide] using h
      obtain ⟨es', he⟩ := jaxToTorchListTotal es d h'
      exact ⟨.container ty es', by simp [jax_to_torch, he]⟩

theorem jaxToTorchListTotal :
    ∀ vs (d : Option String), jaxSideList vs = true →
      ∃ rs, jaxToTorchList vs d = .ok rs
  | [], _, _ => ⟨[], by simp [jaxToTorchList]⟩
  | v :: vs, d, h => by
      have h' : jaxSide v = true ∧ jaxSideList vs = true := by
        simpa [jaxSideList, Bool.and_eq_true] using h
      obtain ⟨r, hr⟩ := jaxToTorchTotal v d h'.1
      obtain ⟨rs, hrs⟩ := jaxToTorchListTotal vs d h'.2
      exact ⟨r :: rs, by simp [jaxToTorchList, hr, hrs]⟩

theorem jaxToTorchEntriesTotal :
    ∀ es (d : Option String), jaxSideEntries es = true →
      ∃ rs, jaxToTorchEntries es d = .ok rs
  | [], _, _ => ⟨[], by simp [jaxToTorchEntries]⟩
  | (k, v) :: rest, d, h => by
      have h' : jaxSide v = true ∧ jaxSideEntries rest = true := by
        simpa [jaxSideEntries, Bool.and_eq_true] using h
      obtain ⟨r, hr⟩ := jaxToTorchTotal v d h'.1
      obtain ⟨rs, hrs⟩ := jaxToTorchEntriesTotal rest d h'.2
      exact ⟨(k, r) :: rs, by simp [jaxToTorchEntries, hr, hrs]⟩

end

/-! ### The claims. -/

/-- C1 counterexample: the A→B converter `jax_to_torch` has no rule for
plain numbers (only `jax.Array`, `abc.Mapping`, `abc.Iterable` and
`NoneType` are registered in that direction), so the plain integer `3`
hits the base case and raises instead of producing a zero-dimensional
torch tensor. -/
theorem c1_counterexample :
    jax_to_torch (.intV 3) none = .error (.unsupportedJaxToTorch "int") := by
  simp [jax_to_torch, pyType]

/-- C1 (amended): scalar numeric conversion is one-directional, not
symmetric: `torch_to_jax` wraps every plain number into a zero-dimensional
jax array, while `jax_to_torch` raises on every plain number. -/
theorem c1_scalar_amended (v : Value) (d : Option String)
    (h : isNumber v = true) :
    (∃ t, torch_to_jax v = .ok (.jaxArray t) ∧ t.shape = []) ∧
    (∃ e, jax_to_torch v d = .error e) := by
  cases v with
  | intV n =>
      exact ⟨⟨⟨[], [.i n], "jax_default_device"⟩,
          by simp [torch_to_jax, _number_torch_to_jax], rfl⟩,
        ⟨.unsupportedJaxToTorch "int", by simp [jax_to_torch, pyType]⟩⟩
  | floatV q =>
      exact ⟨⟨⟨[], [.r q], "jax_default_device"⟩,
          by simp [torch_to_jax, _number_torch_to_jax], rfl⟩,
        ⟨.unsupportedJaxToTorch "float", by simp [jax_to_torch, pyType]⟩⟩
  | boolV b =>
      exact ⟨⟨⟨[], [.b b], "jax_default_device"⟩,
          by simp [torch_to_jax, _number_torch_to_jax], rfl⟩,
        ⟨.unsupportedJaxToTorch "bool", by simp [jax_to_torch, pyType]⟩⟩
  | complexV re im =>
      exact ⟨⟨⟨[], [.c re im], "jax_default_device"⟩,
          by simp [torch_to_jax, _number_torch_to_jax], rfl⟩,
        ⟨.unsupportedJaxToTorch "complex", by simp [jax_to_torch, pyType]⟩⟩
  | none_ => simp [isNumber] at h
  | strV s => simp [isNumber] at h
  | torchTensor t => simp [isNumber] at h
  | jaxArray t => simp [isNumber] at h
  | dict ty es => simp [isNumber] at h
  | ntuple ty fs => simp [isNumber] at h
  | container ty es => simp [isNumber] at h
  | other ty => simp [isNumber] at h

/-- C1 witness: the amended claim at the plain integer 5. -/
theorem c1_scalar_amended_witness :
    isNumber (.intV 5) = true ∧
    ((∃ t, torch_to_jax (.intV 5) = .ok (.jaxArray t) ∧ t.shape = []) ∧
      (∃ e, jax_to_torch (.intV 5) none = .error e)) :=
  ⟨rfl, c1_scalar_amended (.intV 5) none rfl⟩

/-- C2 counterexample: on an environment whose render output is a jax
array, `JaxToTorch.render` returns a converted torch tensor, not the
wrapped environment's output unchanged. -/
theorem c2_counterexample :
    JaxToTorch.render c2W = .ok (.torchTensor c2Tensor) ∧
    JaxToTorch.render c2W ≠ .ok c2W.env.render := by
  constructor
  · simp [JaxToTorch.render, c2W, c2Env, jax_to_torch, _devicearray_jax_to_torch]
  · simp [JaxToTorch.render, c2W, c2Env, jax_to_torch, _devicearray_jax_to_torch]

/-- C2 (amended): `render` delegates and applies the A→B converter with no
device hint to the delegated output: a jax-array render output comes back
as a torch tensor on its original device (interchange only, no device
move, whatever the configured device), not unconverted. -/
theorem c2_render_amended (w : JaxToTorch) (t : Tensor)
    (h : w.env.render = .jaxArray t) :
    JaxToTorch.render w = .ok (.torchTensor t) := by
  simp [JaxToTorch.render, h, jax_to_torch, _devicearray_jax_to_torch]

/-- C2 witness: the amended claim on the concrete render environment. -/
theorem c2_render_amended_witness :
    c2W.env.render = .jaxArray c2Tensor ∧
    JaxToTorch.render c2W = .ok (.torchTensor c2Tensor) :=
  ⟨rfl, c2_render_amended c2W c2Tensor rfl⟩

/-- C3 counterexample: a list holding the plain number `0` is built from
the recognized shapes (generic iterable + scalar numeric), yet the A→B
converter raises on it, because `jax_to_torch` has no rule for plain
numbers. -/
theorem c3_counterexample :
    jax_to_torch (.container "list" [.intV 0]) none
      = .error (.unsupportedJaxToTorch "int") := by
  simp [jax_to_torch, jaxToTorchList, pyType]

/-- C3 (amended): totality holds shape-wise per direction: `torch_to_jax`
terminates and returns a result on every value built from absence, scalar
numbers, torch tensors, strings, mappings, records and generic iterables;
`jax_to_torch` does so on every value built from absence, jax arrays,
strings, mappings, records and generic iterables — but NOT on plain
scalar numbers, which make it raise.  (Termination is intrinsic to the
model: both converters are total Lean functions.) -/
theorem c3_totality_amended (v : Value) (d : Option String) :
    (torchSide v = true → ∃ r, torch_to_jax v = .ok r) ∧
    (jaxSide v = true → ∃ r, jax_to_torch v d = .ok r) :=
  ⟨torchToJaxTotal v, jaxToTorchTotal v d⟩

/-- C3 witness: totality at a nested B-side value (mapping over a list
over string/absence/number/tensor) and a nested A-side value. -/
theorem c3_totality_amended_witness :
    (torchSide c3Value = true ∧ (∃ r, torch_to_jax c3Value = .ok r)) ∧
    (jaxSide c3JaxValue = true ∧ (∃ r, jax_to_torch c3JaxValue none = .ok r)) := by
  have hT : torchSide c3Value = true := by
    simp [c3Value, torchSide, torchSideEntries, torchSideList]
  have hJ : jaxSide c3JaxValue = true := by
    simp [c3JaxValue, jaxSide, jaxSideList]
  exact ⟨⟨hT, (c3_totality_amended c3Value none).1 hT⟩,
    ⟨hJ, (c3_totality_amended c3JaxValue none).2 hJ⟩⟩

/-- C4: whenever `JaxToTorch.step` returns, the reward component of the
5-tuple is a plain float and the terminated/truncated components are plain
booleans, whatever values (tensor-typed or not) the wrapped environment
produced for them. -/
theorem c4_step_scalar_coercion (w : JaxToTorch) (action : Value)
    (res : Value × Value × Value × Value × Value)
    (h : JaxToTorch.step w action = .ok res) :
    (∃ q : Rat, res.2.1 = .floatV q) ∧
    (∃ b : Bool, res.2.2.1 = .boolV b) ∧
    (∃ b : Bool, res.2.2.2.1 = .boolV b) := by
  simp only [JaxToTorch.step] at h
  repeat' split at h
  any_goals exact Except.noConfusion h
  simp only [Except.ok.injEq] at h
  subst h
  exact ⟨⟨_, rfl⟩, ⟨_, rfl⟩, ⟨_, rfl⟩⟩

/-- C4 witness: a step on an environment returning a tensor reward and
tensor terminated/truncated flags, all coerced to plain scalars. -/
theorem c4_step_scalar_coercion_witness :
    JaxToTorch.step c4W c4Action = .ok c4Res ∧
    ((∃ q : Rat, c4Res.2.1 = .floatV q) ∧
      (∃ b : Bool, c4Res.2.2.1 = .boolV b) ∧
      (∃ b : Bool, c4Res.2.2.2.1 = .boolV b)) := by
  have hstep : JaxToTorch.step c4W c4Action = .ok c4Res := by
    simp [JaxToTorch.step, c4W, c4Env, c4Action, c4Res, torch_to_jax,
      jax_to_torch, _tensor_torch_to_jax, _devicearray_jax_to_torch, pyFloat,
      pyBool, elemToFloat, elemToBool, jaxToTorchEntries, c4Tensor, c4RewT,
      c4TermT, c4TruncT]
  exact ⟨hstep, c4_step_scalar_coercion c4W c4Action c4Res hstep⟩

/-- C5: a dialect-A native tensor (jax array) is treated as a tensor leaf
by the A→B converter: the result is exactly the tensor-leaf interchange
conversion `_devicearray_jax_to_torch` — a torch tensor handle — and never
a generic-iterable (or record) rebuild, even though a jax array is
iterable.  (The jax-0.6.0 dispatch sends the array to the iterable
handler, whose `isinstance(value, jax.Array)` guard forwards it to the
leaf conversion, with no device argument.) -/
theorem c5_tensor_leaf_dispatch (t : Tensor) (d : Option String) :
    jax_to_torch (.jaxArray t) d = .ok (_devicearray_jax_to_torch t none) ∧
    jax_to_torch (.jaxArray t) d = .ok (.torchTensor t) ∧
    (∀ ty es, jax_to_torch (.jaxArray t) d ≠ .ok (.container ty es)) ∧
    (∀ ty fs, jax_to_torch (.jaxArray t) d ≠ .ok (.ntuple ty fs)) := by
  refine ⟨by simp [jax_to_torch],
    by simp [jax_to_torch, _devicearray_jax_to_torch], ?_, ?_⟩
  · intro ty es
    simp [jax_to_torch, _devicearray_jax_to_torch]
  · intro ty fs
    simp [jax_to_torch, _devicearray_jax_to_torch]

/-- C6: on a value whose runtime type matches none of the recognized
shapes, each converter raises (returns an error, never a result), and the
rendered error message names the offending runtime type. -/
theorem c6_unsupported_type_error (ty : String) (d : Option String) :
    (torch_to_jax (.other ty) = .error (.unsupportedTorchToJax ty) ∧
      ∃ pre post, (PyError.unsupportedTorchToJax ty).message = pre ++ ty ++ post) ∧
    (jax_to_torch (.other ty) d = .error (.unsupportedJaxToTorch ty) ∧
      ∃ pre post, (PyError.unsupportedJaxToTorch ty).message = pre ++ ty ++ post) :=
  ⟨⟨by simp [torch_to_jax], "No known conversion for Torch type (",
      ") to Jax registered. Report as issue on github.", rfl⟩,
    ⟨by simp [jax_to_torch, pyType], "No known conversion for Jax type (",
      ") to PyTorch registered. Report as issue on github.", rfl⟩⟩

/-- C7: every successfully converted mapping, in either direction, is a
mapping of the same concrete type with exactly the same keys in the same
order, each value the recursive conversion of the corresponding input
value. -/
theorem c7_mapping_preservation (ty : String) (es : List (String × Value))
    (d : Option String) :
    (∀ r, torch_to_jax (.dict ty es) = .ok r →
       ∃ es', r = .dict ty es' ∧ es'.map Prod.fst = es.map Prod.fst ∧
         List.Forall₂ (fun p q => p.1 = q.1 ∧ torch_to_jax p.2 = .ok q.2) es es') ∧
    (∀ r, jax_to_torch (.dict ty es) d = .ok r →
       ∃ es', r = .dict ty es' ∧ es'.map Prod.fst = es.map Prod.fst ∧
         List.Forall₂ (fun p q => p.1 = q.1 ∧ jax_to_torch p.2 d = .ok q.2) es es') := by
  constructor
  · intro r h
    simp only [torch_to_jax] at h
    cases he : torchToJaxEntries es with
    | error e => simp [he] at h
    | ok es' =>
        simp only [he, Except.ok.injEq] at h
        subst h
        have hf := torchToJaxEntries_spec es es' he
        exact ⟨es', rfl, forall2_keys (fun p q hpq => hpq.1) hf, hf⟩
  · intro r h
    simp only [jax_to_torch] at h
    cases he : jaxToTorchEntries es d with
    | error e => simp [he] at h
    | ok es' =>
        simp only [he, Except.ok.injEq] at h
        subst h
        have hf := jaxToTorchEntries_spec es d es' he
        exact ⟨es', rfl, forall2_keys (fun p q hpq => hpq.1) hf, hf⟩

/-- C7 witness: concrete mappings converted in both directions. -/
theorem c7_mapping_preservation_witness :
    torch_to_jax (.dict "dict" c7Es) = .ok c7R ∧
    jax_to_torch (.dict "dict" c7EsJ) none = .ok c7RJ ∧
    (∃ es', c7R = .dict "dict" es' ∧ es'.map Prod.fst = c7Es.map Prod.fst ∧
      List.Forall₂ (fun p q => p.1 = q.1 ∧ torch_to_jax p.2 = .ok q.2) c7Es es') ∧
    (∃ es', c7RJ = .dict "dict" es' ∧ es'.map Prod.fst = c7EsJ.map Prod.fst ∧
      List.Forall₂ (fun p q => p.1 = q.1 ∧ jax_to_torch p.2 none = .ok q.2) c7EsJ es') := by
  have h1 : torch_to_jax (.dict "dict" c7Es) = .ok c7R := by
    simp [c7Es, c7R, torch_to_jax, torchToJaxEntries, _number_torch_to_jax]
  have h2 : jax_to_torch (.dict "dict" c7EsJ) none = .ok c7RJ := by
    simp [c7EsJ, c7RJ, jax_to_torch, jaxToTorchEntries, _devicearray_jax_to_torch]
  exact ⟨h1, h2, (c7_mapping_preservation "dict" c7Es none).1 c7R h1,
    (c7_mapping_preservation "dict" c7EsJ none).2 c7RJ h2⟩

/-- C8: `reset` with a present (mapping-typed, per the declared signature
`options: dict | None`) options argument: the wrapped environment is
invoked with the B→A-converted options and the unchanged seed, and the
returned (observation, info) pair is handed back converted A→B.  (When
the mapping is empty the code skips the conversion call — Python
truthiness — but converting an empty mapping is the identity, so the
wrapped environment still receives exactly the converted options.) -/
theorem c8_reset_delegation (w : JaxToTorch) (seed : Option Int) (ty : String)
    (es : List (String × Value)) (opts : Value)
    (h : torch_to_jax (.dict ty es) = .ok opts) :
    JaxToTorch.reset w seed (some (.dict ty es)) =
      jax_to_torch
        (.container "tuple"
          [(w.env.reset seed (some opts)).1, (w.env.reset seed (some opts)).2])
        w.device := by
  cases es with
  | nil =>
      simp only [torch_to_jax, torchToJaxEntries, Except.ok.injEq] at h
      subst h
      simp [JaxToTorch.reset, pyBool]
  | cons hd tl =>
      simp [JaxToTorch.reset, pyBool, h]

/-- C8 witness: a concrete reset with options, seed 7. -/
theorem c8_reset_delegation_witness :
    torch_to_jax c8Opts = .ok c8OptsJ ∧
    JaxToTorch.reset c8W (some 7) (some c8Opts) =
      jax_to_torch
        (.container "tuple"
          [(c8W.env.reset (some 7) (some c8OptsJ)).1,
            (c8W.env.reset (some 7) (some c8OptsJ)).2])
        c8W.device := by
  have h : torch_to_jax c8Opts = .ok c8OptsJ := by
    simp [c8Opts, c8OptsJ, torch_to_jax, torchToJaxEntries, _number_torch_to_jax]
  exact ⟨h, c8_reset_delegation c8W (some 7) "dict" [("level", .intV 2)] c8OptsJ h⟩

/-- C9: every successfully converted field-rebuildable record, in either
direction, is a record of the same record type whose fields are the
recursive conversions of the original fields, in the same order (the
`_make` rebuild). -/
theorem c9_record_preservation (ty : String) (fs : List Value)
    (d : Option String) :
    (∀ r, torch_to_jax (.ntuple ty fs) = .ok r →
       ∃ fs', r = .ntuple ty fs' ∧
         List.Forall₂ (fun a b => torch_to_jax a = .ok b) fs fs') ∧
    (∀ r, jax_to_torch (.ntuple ty fs) d = .ok r →
       ∃ fs', r = .ntuple ty fs' ∧
         List.Forall₂ (fun a b => jax_to_torch a d = .ok b) fs fs') := by
  constructor
  · intro r h
    simp only [torch_to_jax] at h
    cases hf : torchToJaxList fs with
    | error e => simp [hf] at h
    | ok fs' =>
        simp only [hf, Except.ok.injEq] at h
        subst h
        exact ⟨fs', rfl, torchToJaxList_spec fs fs' hf⟩
  · intro r h
    simp only [jax_to_torch] at h
    cases hf : jaxToTorchList fs d with
    | error e => simp [hf] at h
    | ok fs' =>
        simp only [hf, Except.ok.injEq] at h
        subst h
        exact ⟨fs', rfl, jaxToTorchList_spec fs d fs' hf⟩

/-- C9 witness: three-field records converted in both directions. -/
theorem c9_record_preservation_witness :
    torch_to_jax (.ntuple "Point" c9Fs) = .ok c9R ∧
    jax_to_torch (.ntuple "Obs" c9FsJ) none = .ok c9RJ ∧
    (∃ fs', c9R = .ntuple "Point" fs' ∧
      List.Forall₂ (fun a b => torch_to_jax a = .ok b) c9Fs fs') ∧
    (∃ fs', c9RJ = .ntuple "Obs" fs' ∧
      List.Forall₂ (fun a b => jax_to_torch a none = .ok b) c9FsJ fs') := by
  have h1 : torch_to_jax (.ntuple "Point" c9Fs) = .ok c9R := by
    simp [c9Fs, c9R, torch_to_jax, torchToJaxList, _number_torch_to_jax,
      _tensor_torch_to_jax]
  have h2 : jax_to_torch (.ntuple "Obs" c9FsJ) none = .ok c9RJ := by
    simp [c9FsJ, c9RJ, jax_to_torch, jaxToTorchList, _devicearray_jax_to_torch]
  exact ⟨h1, h2, (c9_record_preservation "Point" c9Fs none).1 c9R h1,
    (c9_record_preservation "Obs" c9FsJ none).2 c9RJ h2⟩

/-- C10: round trip on dialect-A tensor leaves: converting a jax array A→B
and the resulting torch tensor B→A yields a jax array with the same shape
and element-wise equal data (device relocation allowed, no value
change). -/
theorem c10_round_trip (t : Tensor) (d : Option String) :
    ∃ u t', jax_to_torch (.jaxArray t) d = .ok (.torchTensor u) ∧
      torch_to_jax (.torchTensor u) = .ok (.jaxArray t') ∧
      t'.shape = t.shape ∧ t'.data = t.data :=
  ⟨t, t, by simp [jax_to_torch, _devicearray_jax_to_torch],
    by simp [torch_to_jax, _tensor_torch_to_jax], rfl, rfl⟩
